import Mathlib

/- Verification of the `usage` utility-consumption backend
   (files `src/app/operations/{operations,electricity,oil,water}.py`).

   Modelling conventions of this shallow embedding:
   * Python floats (and the int-typed quantity columns) are modelled as
     exact rationals (`ℚ`); `round(x, n)` is modelled by `rnd n` below
     (Mathlib `round`; no concrete value used in this file sits on a
     rounding tie, so the half-even/half-up distinction never matters).
   * `datetime.date` is modelled by `PyDate`: the proleptic-Gregorian
     ordinal (as returned by `date.toordinal()`) paired with the `.year`
     accessor, with the invariant tying the two together.  Date
     comparison and date subtraction act on ordinals, exactly as the
     calendar does.
   * A SQLAlchemy table is modelled as a `List` of rows; SQL `SUM`,
     `AVG`, `MIN`, `MAX`, `GROUP BY`, `ORDER BY` and `COUNT(DISTINCT _)`
     are modelled by list sums, sums over filtered groups, folds over
     optionals (SQL aggregates ignore `NULL`), sorted deduplicated key
     lists, and `List.dedup.length` respectively. -/

/-- Ordinal of January 1 of year `y` in the proleptic Gregorian calendar,
as used by Python `date.toordinal()`:
`_days_before_year(y) + 1 = 365*(y-1) + (y-1)//4 - (y-1)//100 + (y-1)//400 + 1`. -/
def jan1 (y : ℕ) : ℕ :=
  365 * (y - 1) + (y - 1) / 4 - (y - 1) / 100 + (y - 1) / 400 + 1

/-- Leap-year test, as Python `calendar.isleap`. -/
def isLeap (y : ℕ) : Bool :=
  y % 4 == 0 && (y % 100 != 0 || y % 400 == 0)

/-- Number of days in month `m` (1-based) of year `y`. -/
def monthDays (y m : ℕ) : ℕ :=
  if m = 2 then (if isLeap y then 29 else 28)
  else if m = 4 ∨ m = 6 ∨ m = 9 ∨ m = 11 then 30
  else 31

/-- Days of year `y` that precede the first day of month `m`
(Python `datetime._days_before_month`). -/
def daysBeforeMonth (y m : ℕ) : ℕ :=
  ((List.range (m - 1)).map (fun i => monthDays y (i + 1))).sum

/-- Python `date(y, m, d).toordinal()`. -/
def toOrd (y m d : ℕ) : ℕ := jan1 y + daysBeforeMonth y m + (d - 1)

/-- January 1 ordinals strictly increase with the year (for `1 ≤ y`;
Python's `date.MINYEAR` is 1). -/
theorem jan1_lt_succ {y : ℕ} (hy : 1 ≤ y) : jan1 y < jan1 (y + 1) := by
  unfold jan1
  omega

/-- A Python `datetime.date`: its `.year` together with its proleptic
Gregorian ordinal, and the invariant that the ordinal indeed falls in
that year. -/
structure PyDate where
  year : ℕ
  ordn : ℕ
  lower : jan1 year ≤ ordn
  upper : ordn < jan1 (year + 1)

/-- Construct the date `y-m-d`; at concrete dates the range proof is
discharged by `decide`. -/
def mkDate (y m d : ℕ) (h : toOrd y m d < jan1 (y + 1)) : PyDate :=
  ⟨y, toOrd y m d, by unfold toOrd; omega, h⟩

/-- Python `(a - b).days` for two dates. -/
def dateSub (a b : PyDate) : ℤ := (a.ordn : ℤ) - (b.ordn : ℤ)

/-- Python `round(x, p)` on the rational model of floats. -/
def rnd (p : ℕ) (x : ℚ) : ℚ := ((round (x * 10 ^ p) : ℤ) : ℚ) / 10 ^ p

/-- `operations.calculate_price`: `costs / usage if usage else 0.0`. -/
def calculate_price (costs usage : ℚ) : ℚ :=
  if usage = 0 then 0 else costs / usage

/-- `operations.calculate_monthly_payment`: `payments / 12 if payments else 0.0`. -/
def calculate_monthly_payment (payments : ℚ) : ℚ :=
  if payments = 0 then 0 else payments / 12

/-- `operations.calculate_difference`: `costs - payments`. -/
def calculate_difference (costs payments : ℚ) : ℚ := costs - payments

/-- One row of the `electricity` table (the columns the computations
read; `retailer` and `note` are never read and are omitted). -/
structure ElecEntry where
  time_from : PyDate
  time_to : PyDate
  usage : ℚ
  costs : ℚ
  payments : ℚ

/-- The mapping returned by `electricity.calculate_electricity_derived_fields`. -/
structure ElecDerived where
  price : ℚ
  monthly_payment : ℚ
  difference : ℚ

/-- `electricity.calculate_electricity_derived_fields`.  Note the
argument order of the `calculate_difference` call in the source:
`calculate_difference(entry.payments, entry.costs)`. -/
def calculate_electricity_derived_fields (e : ElecEntry) : ElecDerived :=
  { price := rnd 3 (calculate_price e.costs e.usage)
    monthly_payment := rnd 2 (calculate_monthly_payment e.payments)
    difference := rnd 2 (calculate_difference e.payments e.costs) }

/-- `electricity.get_days_in_period`: `(time_to - time_from).days`. -/
def get_days_in_period (time_from time_to : PyDate) : ℤ :=
  dateSub time_to time_from

/-- The `duration_days` of an electricity entry. -/
def durationDays (e : ElecEntry) : ℤ := get_days_in_period e.time_from e.time_to

/-- The `duration_days <= 0` skip condition (negated) used by both the
overall-stats and the yearly-summary loops. -/
def elecValid (e : ElecEntry) : Bool := decide (0 < durationDays e)

/-- Running minimum with a `None` start, as the overall-stats loop tracks
`min_date` (`if min_date is None or entry_time_from < min_date: ...`). -/
def omin : List ℕ → Option ℕ
  | [] => none
  | x :: xs =>
    match omin xs with
    | none => some x
    | some m => some (min x m)

/-- Running maximum with a `None` start, as the overall-stats loop tracks
`max_date`. -/
def omax : List ℕ → Option ℕ
  | [] => none
  | x :: xs =>
    match omax xs with
    | none => some x
    | some m => some (max x m)

/-- `total_usage` accumulated by `get_electricity_overall_stats` (only
entries surviving the `duration_days <= 0` skip contribute). -/
def elecTotalUsage (l : List ElecEntry) : ℚ :=
  ((l.filter elecValid).map (fun e => e.usage)).sum

/-- `total_costs` accumulated by `get_electricity_overall_stats`. -/
def elecTotalCosts (l : List ElecEntry) : ℚ :=
  ((l.filter elecValid).map (fun e => e.costs)).sum

/-- `min_date` tracked by `get_electricity_overall_stats` (as an ordinal). -/
def elecMinFrom (l : List ElecEntry) : Option ℕ :=
  omin ((l.filter elecValid).map (fun e => e.time_from.ordn))

/-- `max_date` tracked by `get_electricity_overall_stats` (as an ordinal). -/
def elecMaxTo (l : List ElecEntry) : Option ℕ :=
  omax ((l.filter elecValid).map (fun e => e.time_to.ordn))

/-- The `ElectricityOverallStats` object built by
`electricity.get_electricity_overall_stats`. -/
structure ElecOverallStats where
  total_usage : ℚ
  total_costs : ℚ
  number_of_years : ℚ
  average_yearly_usage : ℚ

/-- `electricity.get_electricity_overall_stats` over an in-memory table. -/
def get_electricity_overall_stats (l : List ElecEntry) : ElecOverallStats :=
  match elecMinFrom l, elecMaxTo l with
  | some mn, some mx =>
    let total_span_days : ℤ := (mx : ℤ) - (mn : ℤ)
    let number_of_years : ℚ :=
      if 0 < total_span_days then (total_span_days : ℚ) / (365.25 : ℚ) else 0
    let average_yearly_usage : ℚ :=
      if 0 < number_of_years then elecTotalUsage l / number_of_years else 0
    { total_usage := rnd 2 (elecTotalUsage l)
      total_costs := rnd 2 (elecTotalCosts l)
      number_of_years := rnd 2 number_of_years
      average_yearly_usage := rnd 2 average_yearly_usage }
  | _, _ =>
    { total_usage := 0, total_costs := 0, number_of_years := 0
      average_yearly_usage := 0 }

/-- `date(current_date.year, 12, 31) + timedelta(days=1)`, i.e. January 1
of the year after the one containing `c`. -/
def nextYearStart (c : PyDate) : PyDate :=
  ⟨c.year + 1, jan1 (c.year + 1), le_refl _, jan1_lt_succ (by omega)⟩

/-- `segment_end = min(entry_time_to, end_of_year + timedelta(days=1))`. -/
def segMin (tto c : PyDate) : PyDate :=
  if tto.ordn ≤ (nextYearStart c).ordn then tto else nextYearStart c

/-- The `while current_date < entry_time_to` year-splitting loop of
`get_electricity_yearly_summary`, with an explicit iteration bound
`fuel`; it emits the `(year, days_in_current_year_for_entry)` pairs the
loop accumulates. -/
def segmentsF : ℕ → PyDate → PyDate → List (ℕ × ℕ)
  | 0, _, _ => []
  | fuel + 1, tto, c =>
    if c.ordn < tto.ordn then
      (c.year, (segMin tto c).ordn - c.ordn) :: segmentsF fuel tto (segMin tto c)
    else []

/-- The year-splitting loop; `tto.ordn - c.ordn` iterations always
suffice (proved below). -/
def segments (tto c : PyDate) : List (ℕ × ℕ) :=
  segmentsF (tto.ordn - c.ordn) tto c

/-- Within the loop body, `segment_end` is a strict advance. -/
theorem segMin_gt {tto c : PyDate} (h : c.ordn < tto.ordn) :
    c.ordn < (segMin tto c).ordn := by
  unfold segMin
  split
  · exact h
  · exact c.upper

/-- Within the loop body, `segment_end` never passes `entry_time_to`. -/
theorem segMin_le (tto c : PyDate) : (segMin tto c).ordn ≤ tto.ordn := by
  unfold segMin
  split
  · exact le_refl _
  · next hn => omega

/-- Any two sufficient fuels produce the same segment list. -/
theorem segmentsF_congr :
    ∀ (f g : ℕ) (tto c : PyDate), tto.ordn - c.ordn ≤ f →
      tto.ordn - c.ordn ≤ g → segmentsF f tto c = segmentsF g tto c := by
  intro f
  induction f with
  | zero =>
    intro g tto c hf hg
    have hle : tto.ordn ≤ c.ordn := by omega
    cases g with
    | zero => rfl
    | succ g => simp [segmentsF, Nat.not_lt.mpr hle]
  | succ f ih =>
    intro g tto c hf hg
    by_cases h : c.ordn < tto.ordn
    · cases g with
      | zero => omega
      | succ g =>
        have hadv := @segMin_gt tto c h
        have hle := segMin_le tto c
        simp only [segmentsF, if_pos h]
        exact congrArg _ (ih g tto (segMin tto c) (by omega) (by omega))
    · cases g with
      | zero => simp [segmentsF, h]
      | succ g => simp [segmentsF, h]

/-- With sufficient fuel, `segmentsF` computes `segments`. -/
theorem segmentsF_eq_segments (fuel : ℕ) (tto c : PyDate)
    (h : tto.ordn - c.ordn ≤ fuel) : segmentsF fuel tto c = segments tto c :=
  segmentsF_congr fuel (tto.ordn - c.ordn) tto c h (le_refl _)

/-- The day counts of the emitted segments telescope to the full
duration. -/
theorem segments_days_sum (tto c : PyDate) :
    ((segments tto c).map Prod.snd).sum = tto.ordn - c.ordn := by
  suffices h : ∀ (f : ℕ) (c : PyDate), tto.ordn - c.ordn ≤ f →
      ((segmentsF f tto c).map Prod.snd).sum = tto.ordn - c.ordn by
    exact h _ c (le_refl _)
  intro f
  induction f with
  | zero =>
    intro c hf
    simp only [segmentsF, List.map_nil, List.sum_nil]
    omega
  | succ f ih =>
    intro c hf
    by_cases h : c.ordn < tto.ordn
    · have hadv := @segMin_gt tto c h
      have hle := segMin_le tto c
      have := ih (segMin tto c) (by omega)
      simp only [segmentsF, if_pos h, List.map_cons, List.sum_cons, this]
      omega
    · simp only [segmentsF, if_neg h, List.map_nil, List.sum_nil]
      omega

/-- The segments the year-splitting loop produces for one entry. -/
def entrySegs (e : ElecEntry) : List (ℕ × ℕ) :=
  segments e.time_to e.time_from

/-- Days of entry `e`'s period that the loop attributes to calendar year
`y` (total of `days_in_current_year_for_entry` over the segments of that
year). -/
def entryDaysInYear (e : ElecEntry) (y : ℕ) : ℕ :=
  (((entrySegs e).filter (fun p => p.1 == y)).map Prod.snd).sum

/-- Usage the loop adds to year `y` for entry `e`:
`daily_usage_rate * days_in_current_year_for_entry`, summed over the
entry's segments of that year (`0` for skipped entries). -/
def entryYearUsage (e : ElecEntry) (y : ℕ) : ℚ :=
  if durationDays e ≤ 0 then 0
  else e.usage / (durationDays e : ℚ) * (entryDaysInYear e y : ℚ)

/-- Costs the loop adds to year `y` for entry `e`. -/
def entryYearCosts (e : ElecEntry) (y : ℕ) : ℚ :=
  if durationDays e ≤ 0 then 0
  else e.costs / (durationDays e : ℚ) * (entryDaysInYear e y : ℚ)

/-- Calendar years entry `e`'s period touches (each exactly once). -/
def entryYears (e : ElecEntry) : List ℕ :=
  ((entrySegs e).map Prod.fst).dedup

/-- The keys of the `yearly_data` dict after processing every entry
(skipped entries produce no segments), in the `sorted(...)` order used
for output. -/
def elecYearsAll (l : List ElecEntry) : List ℕ :=
  (((l.map (fun e => (entrySegs e).map Prod.fst)).flatten).dedup).insertionSort (· ≤ ·)

/-- One `ElectricityYearlySummary` row. -/
structure ElecYearRow where
  year : ℕ
  total_usage : ℚ
  total_costs : ℚ

/-- `electricity.get_electricity_yearly_summary` over an in-memory table.
The dict accumulation of the source is rendered as, for each year key,
the sum over all entries of what the loop adds for that year (addition
of exact rationals is commutative and associative, so the accumulation
order is immaterial). -/
def get_electricity_yearly_summary (l : List ElecEntry) : List ElecYearRow :=
  (elecYearsAll l).map (fun y =>
    { year := y
      total_usage := rnd 2 ((l.map (fun e => entryYearUsage e y)).sum)
      total_costs := rnd 2 ((l.map (fun e => entryYearCosts e y)).sum) })

/-- One `ElectricityPriceTrend` row. -/
structure ElecTrendRow where
  year : ℕ
  average_price : ℚ

/-- `electricity.get_electricity_price_trend`: SQL
`AVG(costs/usage) ... WHERE usage > 0 GROUP BY strftime('%Y', time_from)
ORDER BY year`. -/
def get_electricity_price_trend (l : List ElecEntry) : List ElecTrendRow :=
  let fl := l.filter (fun e => decide (0 < e.usage))
  (((fl.map (fun e => e.time_from.year)).dedup).insertionSort (· ≤ ·)).map (fun y =>
    let g := fl.filter (fun e => e.time_from.year == y)
    { year := y
      average_price := rnd 3 ((g.map (fun e => e.costs / e.usage)).sum / (g.length : ℚ)) })

/-- One row of the `oil` table (`retailer` and `note` omitted: never read). -/
structure OilEntry where
  date : PyDate
  volume : ℚ
  costs : ℚ

/-- The mapping returned by `oil.calculate_oil_derived_fields`. -/
structure OilDerived where
  price : ℚ
  year_usage : ℚ

/-- `oil.calculate_oil_derived_fields`: note that the source sets
`year_usage = float(entry.volume)` — the entry's own volume. -/
def calculate_oil_derived_fields (e : OilEntry) : OilDerived :=
  { price := rnd 3 (calculate_price e.costs e.volume)
    year_usage := rnd 2 e.volume }

/-- Sum of `volume` over the oil entries of calendar year `y`.  This is
the aggregate the spec prescribes for the derived field `year_usage`
(and which the superseded `crud.calculate_oil_derived_fields` computes
with its read-back query `SUM(volume) WHERE year(date) = entry year`). -/
def oilYearVolumeSum (l : List OilEntry) (y : ℕ) : ℚ :=
  ((l.filter (fun e => e.date.year == y)).map (fun e => e.volume)).sum

/-- Sum of `costs` over the oil entries of calendar year `y` (spec's
`year_costs` aggregate). -/
def oilYearCostsSum (l : List OilEntry) (y : ℕ) : ℚ :=
  ((l.filter (fun e => e.date.year == y)).map (fun e => e.costs)).sum

/-- The `OilOverallStats` object. -/
structure OilOverallStats where
  total_volume : ℚ
  total_costs : ℚ
  number_of_years : ℕ
  average_volume : ℚ

/-- `oil.get_oil_overall_stats`.  `func.sum(...).scalar() or 0` is the
list sum (`NULL`/`None` only arises on the empty table, where the sum is
`0` anyway); `COUNT(DISTINCT strftime('%Y', date)) or 1` is the number
of distinct years, coalesced to `1` when it is `0`. -/
def get_oil_overall_stats (l : List OilEntry) : OilOverallStats :=
  let total_volume : ℚ := (l.map (fun e => e.volume)).sum
  let total_costs : ℚ := (l.map (fun e => e.costs)).sum
  let cnt : ℕ := ((l.map (fun e => e.date.year)).dedup).length
  let number_of_years : ℕ := if cnt = 0 then 1 else cnt
  { total_volume := rnd 2 total_volume
    total_costs := rnd 2 total_costs
    number_of_years := number_of_years
    average_volume := rnd 2 (total_volume / (number_of_years : ℚ)) }

/-- One row of the `water` table as addressed by `operations/water.py`.
That file reads per-stream payment columns (`payments_water`,
`payments_wastewater`, `payments_rainwater`); we model the row shape the
operations code addresses.  `note` is never read and is omitted. -/
structure WaterEntry where
  year : ℕ
  volume_water : ℚ
  volume_wastewater : ℚ
  volume_rainwater : ℚ
  costs_water : ℚ
  costs_wastewater : ℚ
  costs_rainwater : ℚ
  payments_water : ℚ
  payments_wastewater : ℚ
  payments_rainwater : ℚ
  fixed_price : ℚ

/-- The mapping returned by `water.calculate_water_derived_fields`. -/
structure WaterDerived where
  price_water : ℚ
  price_wastewater : ℚ
  price_rainwater : ℚ
  monthly_payment_water : ℚ
  monthly_payment_wastewater : ℚ
  monthly_payment_rainwater : ℚ
  difference_water : ℚ
  difference_wastewater : ℚ
  difference_rainwater : ℚ

/-- `water.calculate_water_derived_fields`.  Note the source passes
`entry.costs_wastewater` and `entry.costs_rainwater` (not the payments
columns) to `calculate_monthly_payment` for those two streams, and calls
`calculate_difference(payments_x, costs_x)` with the payments first. -/
def calculate_water_derived_fields (e : WaterEntry) : WaterDerived :=
  { price_water := rnd 3 (calculate_price e.costs_water e.volume_water)
    price_wastewater := rnd 3 (calculate_price e.costs_wastewater e.volume_wastewater)
    price_rainwater := rnd 3 (calculate_price e.costs_rainwater e.volume_rainwater)
    monthly_payment_water := rnd 2 (calculate_monthly_payment e.payments_water)
    monthly_payment_wastewater := rnd 2 (calculate_monthly_payment e.costs_wastewater)
    monthly_payment_rainwater := rnd 2 (calculate_monthly_payment e.costs_rainwater)
    difference_water := rnd 2 (calculate_difference e.payments_water e.costs_water)
    difference_wastewater := rnd 2 (calculate_difference e.payments_wastewater e.costs_wastewater)
    difference_rainwater := rnd 2 (calculate_difference e.payments_rainwater e.costs_rainwater) }

/-- The `WaterOverallStats` object built by `water.get_water_overall_stats`. -/
structure WaterOverallStats where
  total_volume_water : ℚ
  total_volume_wastewater : ℚ
  total_volume_rainwater : ℚ
  total_costs_water : ℚ
  total_costs_wastewater : ℚ
  total_costs_rainwater : ℚ
  total_payments_water : ℚ
  total_payments_wastewater : ℚ
  total_payments_rainwater : ℚ
  total_difference_water : ℚ
  total_difference_wastewater : ℚ
  total_difference_rainwater : ℚ
  total_fixed_price : ℚ
  number_of_years : ℕ
  average_yearly_volume_water : ℚ
  average_yearly_volume_wastewater : ℚ
  average_yearly_volume_rainwater : ℚ
  average_yearly_costs_water : ℚ
  average_yearly_costs_wastewater : ℚ
  average_yearly_costs_rainwater : ℚ
  average_yearly_fixed_price : ℚ
  total_costs : ℚ
  average_usage : ℚ

/-- `water.get_water_overall_stats`.  Sums model `func.sum(...) or 0`;
`COUNT(DISTINCT year) or 1` as for oil. -/
def get_water_overall_stats (l : List WaterEntry) : WaterOverallStats :=
  let tvw : ℚ := (l.map (fun e => e.volume_water)).sum
  let tvww : ℚ := (l.map (fun e => e.volume_wastewater)).sum
  let tvrw : ℚ := (l.map (fun e => e.volume_rainwater)).sum
  let tcw : ℚ := (l.map (fun e => e.costs_water)).sum
  let tcww : ℚ := (l.map (fun e => e.costs_wastewater)).sum
  let tcrw : ℚ := (l.map (fun e => e.costs_rainwater)).sum
  let tpw : ℚ := (l.map (fun e => e.payments_water)).sum
  let tpww : ℚ := (l.map (fun e => e.payments_wastewater)).sum
  let tprw : ℚ := (l.map (fun e => e.payments_rainwater)).sum
  let tfx : ℚ := (l.map (fun e => e.fixed_price)).sum
  let cnt : ℕ := ((l.map (fun e => e.year)).dedup).length
  let number_of_years : ℕ := if cnt = 0 then 1 else cnt
  { total_volume_water := rnd 2 tvw
    total_volume_wastewater := rnd 2 tvww
    total_volume_rainwater := rnd 2 tvrw
    total_costs_water := rnd 2 tcw
    total_costs_wastewater := rnd 2 tcww
    total_costs_rainwater := rnd 2 tcrw
    total_payments_water := rnd 2 tpw
    total_payments_wastewater := rnd 2 tpww
    total_payments_rainwater := rnd 2 tprw
    total_difference_water := rnd 2 (calculate_difference tpw tcw)
    total_difference_wastewater := rnd 2 (calculate_difference tpww tcww)
    total_difference_rainwater := rnd 2 (calculate_difference tprw tcrw)
    total_fixed_price := rnd 2 tfx
    number_of_years := number_of_years
    average_yearly_volume_water := rnd 2 (tvw / (number_of_years : ℚ))
    average_yearly_volume_wastewater := rnd 2 (tvww / (number_of_years : ℚ))
    average_yearly_volume_rainwater := rnd 2 (tvrw / (number_of_years : ℚ))
    average_yearly_costs_water := rnd 2 (tcw / (number_of_years : ℚ))
    average_yearly_costs_wastewater := rnd 2 (tcww / (number_of_years : ℚ))
    average_yearly_costs_rainwater := rnd 2 (tcrw / (number_of_years : ℚ))
    average_yearly_fixed_price := rnd 2 (tfx / (number_of_years : ℚ))
    total_costs := rnd 2 (tcw + tcww + tcrw + tfx)
    average_usage := rnd 2 (tvw / (number_of_years : ℚ)) }

/-- One `WaterYearlySummary` row as constructed by
`water.get_water_yearly_summary` (it has both a `total_costs_wastewater`
and a separate derived `costs_wastewater` field, as in the source). -/
structure WaterYearRow where
  year : ℕ
  total_volume_water : ℚ
  total_volume_wastewater : ℚ
  total_volume_rainwater : ℚ
  total_costs_water : ℚ
  total_costs_wastewater : ℚ
  total_costs_rainwater : ℚ
  total_payments_water : ℚ
  total_payments_wastewater : ℚ
  total_payments_rainwater : ℚ
  volume_wastewater : ℚ
  costs_wastewater : ℚ

/-- The distinct `year` keys of a water table, ascending (`GROUP BY year
ORDER BY year`). -/
def waterYears (l : List WaterEntry) : List ℕ :=
  (((l.map (fun e => e.year)).dedup).insertionSort (· ≤ ·))

/-- `water.get_water_yearly_summary`.  Faithful to the query: the column
labelled `total_volume_wastewater` sums `WaterDB.volume_water`, and the
extra columns sum `volume_water + volume_rainwater` and
`costs_wastewater + costs_rainwater`. -/
def get_water_yearly_summary (l : List WaterEntry) : List WaterYearRow :=
  (waterYears l).map (fun y =>
    let g := l.filter (fun e => e.year == y)
    { year := y
      total_volume_water := rnd 2 ((g.map (fun e => e.volume_water)).sum)
      total_volume_wastewater := rnd 2 ((g.map (fun e => e.volume_water)).sum)
      total_volume_rainwater := rnd 2 ((g.map (fun e => e.volume_rainwater)).sum)
      total_costs_water := rnd 2 ((g.map (fun e => e.costs_water)).sum)
      total_costs_wastewater := rnd 2 ((g.map (fun e => e.costs_wastewater)).sum)
      total_costs_rainwater := rnd 2 ((g.map (fun e => e.costs_rainwater)).sum)
      total_payments_water := rnd 2 ((g.map (fun e => e.payments_water)).sum)
      total_payments_wastewater := rnd 2 ((g.map (fun e => e.payments_wastewater)).sum)
      total_payments_rainwater := rnd 2 ((g.map (fun e => e.payments_rainwater)).sum)
      volume_wastewater := rnd 2 ((g.map (fun e => e.volume_water + e.volume_rainwater)).sum)
      costs_wastewater := rnd 2 ((g.map (fun e => e.costs_wastewater + e.costs_rainwater)).sum) })

/-- SQL `MIN` over a column of nullable values: ignores `NULL`s, `NULL`
when nothing remains. -/
def sqlMinOpt (xs : List (Option ℚ)) : Option ℚ :=
  xs.foldl (fun acc x =>
    match acc, x with
    | none, v => v
    | some m, none => some m
    | some m, some v => some (min m v)) none

/-- SQL `MAX` over a column of nullable values. -/
def sqlMaxOpt (xs : List (Option ℚ)) : Option ℚ :=
  xs.foldl (fun acc x =>
    match acc, x with
    | none, v => v
    | some m, none => some m
    | some m, some v => some (max m v)) none

/-- The WHERE clause of `water.get_water_price_trend`:
`volume_water > 0 AND volume_wastewater > 0 AND volume_rainwater > 0`
(one global filter for all three streams). -/
def waterTrendFilter (e : WaterEntry) : Bool :=
  decide (0 < e.volume_water) && decide (0 < e.volume_wastewater)
    && decide (0 < e.volume_rainwater)

/-- One `WaterPriceTrend` row. -/
structure WaterTrendRow where
  year : ℕ
  average_price_water : ℚ
  min_price_water : ℚ
  max_price_water : ℚ
  average_price_wastewater : ℚ
  min_price_wastewater : ℚ
  max_price_wastewater : ℚ
  average_price_rainwater : ℚ
  min_price_rainwater : ℚ
  max_price_rainwater : ℚ
  average_fixed_price : ℚ
  min_fixed_price : ℚ
  max_fixed_price : ℚ

/-- Distinct years of the rows surviving the water-trend filter,
ascending. -/
def waterTrendYears (l : List WaterEntry) : List ℕ :=
  ((((l.filter waterTrendFilter).map (fun e => e.year)).dedup).insertionSort (· ≤ ·))

/-- `water.get_water_price_trend`.  Faithful to the query: a single
global `WHERE` excludes a row from all streams as soon as any one of its
three volumes is not positive; the `MIN` columns keep the source's
`CASE WHEN volume > 0 THEN ... ELSE NULL END` (in particular
`min_price_wastewater` divides `costs_wastewater` by `volume_water`, as
in the source); `None` aggregates are coalesced to `0.0` as in the
result loop. -/
def get_water_price_trend (l : List WaterEntry) : List WaterTrendRow :=
  let fl := l.filter waterTrendFilter
  (waterTrendYears l).map (fun y =>
    let g := fl.filter (fun e => e.year == y)
    let n : ℚ := (g.length : ℚ)
    { year := y
      average_price_water := rnd 3 ((g.map (fun e => e.costs_water / e.volume_water)).sum / n)
      min_price_water :=
        match sqlMinOpt (g.map (fun e =>
          if 0 < e.volume_water then some (e.costs_water / e.volume_water) else none)) with
        | some v => rnd 3 v
        | none => 0
      max_price_water :=
        match sqlMaxOpt (g.map (fun e => some (e.costs_water / e.volume_water))) with
        | some v => rnd 3 v
        | none => 0
      average_price_wastewater := rnd 3 ((g.map (fun e => e.costs_wastewater / e.volume_wastewater)).sum / n)
      min_price_wastewater :=
        match sqlMinOpt (g.map (fun e =>
          if 0 < e.volume_wastewater then some (e.costs_wastewater / e.volume_water) else none)) with
        | some v => rnd 3 v
        | none => 0
      max_price_wastewater :=
        match sqlMaxOpt (g.map (fun e => some (e.costs_wastewater / e.volume_wastewater))) with
        | some v => rnd 3 v
        | none => 0
      average_price_rainwater := rnd 3 ((g.map (fun e => e.costs_rainwater / e.volume_rainwater)).sum / n)
      min_price_rainwater :=
        match sqlMinOpt (g.map (fun e =>
          if 0 < e.volume_rainwater then some (e.costs_rainwater / e.volume_rainwater) else none)) with
        | some v => rnd 3 v
        | none => 0
      max_price_rainwater :=
        match sqlMaxOpt (g.map (fun e => some (e.costs_rainwater / e.volume_rainwater))) with
        | some v => rnd 3 v
        | none => 0
      average_fixed_price := rnd 3 ((g.map (fun e => e.fixed_price)).sum / n)
      min_fixed_price :=
        match sqlMinOpt (g.map (fun e => some e.fixed_price)) with
        | some v => rnd 3 v
        | none => 0
      max_fixed_price :=
        match sqlMaxOpt (g.map (fun e => some e.fixed_price)) with
        | some v => rnd 3 v
        | none => 0 })

/-- The water-stream yearly average price as the spec's claim reads: an
entry is excluded from the water stream's statistic only when its own
`volume_water` denominator is zero, independently of the other streams.
Stated from the claim's words for comparison with the source's
behaviour. -/
def claimedWaterAvgPriceWater (l : List WaterEntry) (y : ℕ) : ℚ :=
  let g := l.filter (fun e => e.year == y && decide (0 < e.volume_water))
  (g.map (fun e => e.costs_water / e.volume_water)).sum / (g.length : ℚ)

/-- The date 2023-11-15. -/
def d20231115 : PyDate := mkDate 2023 11 15 (by decide)

/-- The date 2024-02-10. -/
def d20240210 : PyDate := mkDate 2024 2 10 (by decide)

/-- The spec's proration example: an electricity entry from 2023-11-15
to 2024-02-10 with usage 870 (costs and payments are immaterial). -/
def exSplit : ElecEntry :=
  { time_from := d20231115, time_to := d20240210
    usage := 870, costs := 87, payments := 0 }

/-- Sums distribute over pointwise addition of mapped functions. -/
theorem list_sum_map_add {α : Type} (ks : List α) (f g : α → ℕ) :
    (ks.map (fun y => f y + g y)).sum = (ks.map f).sum + (ks.map g).sum := by
  induction ks with
  | nil => simp
  | cons k t ih => simp only [List.map_cons, List.sum_cons, ih]; omega

/-- Over a duplicate-free key list containing `a`, an indicator sum
collapses to its single hit. -/
theorem sum_map_indicator {ks : List ℕ} (hnd : ks.Nodup) {a : ℕ}
    (ha : a ∈ ks) (c : ℕ) :
    (ks.map (fun y => if a == y then c else 0)).sum = c := by
  induction ks with
  | nil => cases ha
  | cons k t ih =>
    obtain ⟨hk, hnt⟩ := List.nodup_cons.mp hnd
    rcases List.mem_cons.mp ha with h | h
    · subst h
      simp only [List.map_cons, List.sum_cons, beq_self_eq_true, if_pos]
      have hz : ((t.map (fun y => if a == y then c else 0)).sum) = 0 := by
        apply List.sum_eq_zero
        intro x hx
        obtain ⟨y, hy, rfl⟩ := List.mem_map.mp hx
        have : a ≠ y := fun he => hk (he ▸ hy)
        simp [this]
      omega
    · have hak : a ≠ k := fun he => hk (he ▸ h)
      have hbeq : (a == k) = false := beq_eq_false_iff_ne.mpr hak
      simp only [List.map_cons, List.sum_cons, hbeq, if_neg, Bool.false_eq_true,
        ite_false, ih hnt h, Nat.zero_add]

/-- Summing each key's fiber over a duplicate-free key list covering all
keys of `l` recovers the total sum. -/
theorem sum_fiber (ks : List ℕ) (l : List (ℕ × ℕ)) (hnd : ks.Nodup)
    (hsub : ∀ p ∈ l, p.1 ∈ ks) :
    (ks.map (fun y => (((l.filter (fun p => p.1 == y)).map Prod.snd).sum))).sum
      = (l.map Prod.snd).sum := by
  induction l with
  | nil => simp
  | cons p t ih =>
    have hp : p.1 ∈ ks := hsub p (List.mem_cons_self p t)
    have ht : ∀ q ∈ t, q.1 ∈ ks := fun q hq => hsub q (List.mem_cons_of_mem p hq)
    have key : ∀ y, (((p :: t).filter (fun q => q.1 == y)).map Prod.snd).sum
        = (if p.1 == y then p.2 else 0)
          + ((t.filter (fun q => q.1 == y)).map Prod.snd).sum := by
      intro y
      by_cases h : p.1 == y
      · simp [List.filter_cons, h]
      · simp [List.filter_cons, h]
    simp only [key, list_sum_map_add, sum_map_indicator hnd hp, ih ht,
      List.map_cons, List.sum_cons]

/-- A `some` result of the running minimum bounds every element. -/
theorem omin_le : ∀ {xs : List ℕ} {m : ℕ}, omin xs = some m →
    ∀ {x : ℕ}, x ∈ xs → m ≤ x := by
  intro xs
  induction xs with
  | nil => intro m h x hx; cases hx
  | cons a t ih =>
    intro m h x hx
    rcases List.mem_cons.mp hx with rfl | hxt
    · unfold omin at h
      cases hm : omin t with
      | none => rw [hm] at h; injection h with h; omega
      | some m' => rw [hm] at h; injection h with h; subst h; exact min_le_left _ _
    · unfold omin at h
      cases hm : omin t with
      | none =>
        cases t with
        | nil => cases hxt
        | cons b u => exact absurd hm (by unfold omin; cases omin u <;> simp)
      | some m' =>
        rw [hm] at h; injection h with h; subst h
        exact le_trans (min_le_right _ _) (ih hm hxt)

/-- A `some` result of the running minimum is attained in the list. -/
theorem omin_mem : ∀ {xs : List ℕ} {m : ℕ}, omin xs = some m → m ∈ xs := by
  intro xs
  induction xs with
  | nil => intro m h; cases h
  | cons a t ih =>
    intro m h
    unfold omin at h
    cases hm : omin t with
    | none => rw [hm] at h; injection h with h; exact h ▸ List.mem_cons_self a t
    | some m' =>
      rw [hm] at h; injection h with h; subst h
      rcases le_total a m' with hle | hle
      · rw [min_eq_left hle]; exact List.mem_cons_self a t
      · rw [min_eq_right hle]; exact List.mem_cons_of_mem a (ih hm)

/-- A `some` result of the running maximum bounds every element. -/
theorem omax_ge : ∀ {xs : List ℕ} {m : ℕ}, omax xs = some m →
    ∀ {x : ℕ}, x ∈ xs → x ≤ m := by
  intro xs
  induction xs with
  | nil => intro m h x hx; cases hx
  | cons a t ih =>
    intro m h x hx
    rcases List.mem_cons.mp hx with rfl | hxt
    · unfold omax at h
      cases hm : omax t with
      | none => rw [hm] at h; injection h with h; omega
      | some m' => rw [hm] at h; injection h with h; subst h; exact le_max_left _ _
    · unfold omax at h
      cases hm : omax t with
      | none =>
        cases t with
        | nil => cases hxt
        | cons b u => exact absurd hm (by unfold omax; cases omax u <;> simp)
      | some m' =>
        rw [hm] at h; injection h with h; subst h
        exact le_trans (ih hm hxt) (le_max_right _ _)

/-- Filtering twice with the same predicate filters once. -/
theorem filter_idem {α : Type} (p : α → Bool) (l : List α) :
    (l.filter p).filter p = l.filter p := by
  simp [List.filter_filter]

/-- Surviving the skip means a genuinely increasing period. -/
theorem elecValid_lt {e : ElecEntry} (h : elecValid e = true) :
    e.time_from.ordn < e.time_to.ordn := by
  have := of_decide_eq_true h
  unfold durationDays get_days_in_period dateSub at this
  omega

/-- Day-proration conservation: for a positive-duration entry, the
per-year day counts of the splitting loop rebuild the whole duration,
so any daily rate times them rebuilds the whole amount. -/
theorem entry_split_sum (e : ElecEntry) (h : 0 < durationDays e) (v : ℚ) :
    ((entryYears e).map (fun y =>
        v / (durationDays e : ℚ) * (entryDaysInYear e y : ℚ))).sum = v := by
  have hlt : e.time_from.ordn < e.time_to.ordn := by
    unfold durationDays get_days_in_period dateSub at h
    omega
  have hndays : ((entryYears e).map (fun y => entryDaysInYear e y)).sum
      = e.time_to.ordn - e.time_from.ordn := by
    have hnd : (entryYears e).Nodup := List.nodup_dedup _
    have hsub : ∀ p ∈ entrySegs e, p.1 ∈ entryYears e := fun p hp =>
      List.mem_dedup.mpr (List.mem_map_of_mem _ hp)
    have hfib := sum_fiber (entryYears e) (entrySegs e) hnd hsub
    unfold entryDaysInYear
    rw [hfib]
    exact segments_days_sum _ _
  have hcast : ((entryYears e).map (fun y => ((entryDaysInYear e y : ℕ) : ℚ))).sum
      = ((e.time_to.ordn - e.time_from.ordn : ℕ) : ℚ) := by
    rw [← hndays, Nat.cast_list_sum, List.map_map]
    rfl
  have hD : ((e.time_to.ordn - e.time_from.ordn : ℕ) : ℚ) = ((durationDays e : ℤ) : ℚ) := by
    unfold durationDays get_days_in_period dateSub
    rw [Nat.cast_sub hlt.le]
    push_cast
    ring
  have hDpos : (0 : ℚ) < ((durationDays e : ℤ) : ℚ) := by
    exact_mod_cast h
  rw [List.sum_map_mul_left, hcast, hD]
  exact div_mul_cancel₀ v (ne_of_gt hDpos)

/-- C1: an electricity entry with positive duration is split across the
calendar years its period touches by day-count proration; the split
amounts sum back to the entry's usage (and costs) exactly, and the
spec's example (2023-11-15 → 2024-02-10, usage 870, costs 87) yields
470/47 for 2023 and 400/40 for 2024, also through the full yearly
summary. -/
theorem spec_c1 :
    (∀ e : ElecEntry, 0 < durationDays e →
        ((entryYears e).map (fun y => entryYearUsage e y)).sum = e.usage ∧
        ((entryYears e).map (fun y => entryYearCosts e y)).sum = e.costs) ∧
    entryYearUsage exSplit 2023 = 470 ∧ entryYearUsage exSplit 2024 = 400 ∧
    get_electricity_yearly_summary [exSplit] =
      [{ year := 2023, total_usage := 470, total_costs := 47 },
       { year := 2024, total_usage := 400, total_costs := 40 }] := by
  have hd : durationDays exSplit = 87 := by decide
  have h23 : entryDaysInYear exSplit 2023 = 47 := by decide
  have h24 : entryDaysInYear exSplit 2024 = 40 := by decide
  have hu23 : entryYearUsage exSplit 2023 = 470 := by
    rw [entryYearUsage, hd, h23]; simp only [exSplit]; norm_num
  have hu24 : entryYearUsage exSplit 2024 = 400 := by
    rw [entryYearUsage, hd, h24]; simp only [exSplit]; norm_num
  have hc23 : entryYearCosts exSplit 2023 = 47 := by
    rw [entryYearCosts, hd, h23]; simp only [exSplit]; norm_num
  have hc24 : entryYearCosts exSplit 2024 = 40 := by
    rw [entryYearCosts, hd, h24]; simp only [exSplit]; norm_num
  refine ⟨?_, hu23, hu24, ?_⟩
  · intro e h
    constructor
    · simp only [entryYearUsage, if_neg (not_le.mpr h)]
      exact entry_split_sum e h e.usage
    · simp only [entryYearCosts, if_neg (not_le.mpr h)]
      exact entry_split_sum e h e.costs
  · have hyears : elecYearsAll [exSplit] = [2023, 2024] := by decide
    have hr470 : rnd 2 (470 : ℚ) = 470 := by rw [rnd, round_eq]; norm_num
    have hr400 : rnd 2 (400 : ℚ) = 400 := by rw [rnd, round_eq]; norm_num
    have hr47 : rnd 2 (47 : ℚ) = 47 := by rw [rnd, round_eq]; norm_num
    have hr40 : rnd 2 (40 : ℚ) = 40 := by rw [rnd, round_eq]; norm_num
    simp [get_electricity_yearly_summary, hyears, hu23, hu24, hc23, hc24,
      hr470, hr400, hr47, hr40]

/-- Witness for C1 at the spec's concrete entry. -/
theorem spec_c1_witness :
    0 < durationDays exSplit ∧
    (((entryYears exSplit).map (fun y => entryYearUsage exSplit y)).sum
        = exSplit.usage ∧
      ((entryYears exSplit).map (fun y => entryYearCosts exSplit y)).sum
        = exSplit.costs) :=
  ⟨by decide, spec_c1.1 exSplit (by decide)⟩

/-- C2: electricity overall stats skip non-positive-duration entries
entirely (the result only depends on the surviving entries), and with at
least one surviving entry (witnessed by the tracked `min_date` and
`max_date`) the span is positive, `number_of_years` is
`(max(time_to) - min(time_from)).days / 365.25` and
`average_yearly_usage` is `total_usage / number_of_years` (both rounded
to 2 decimals on output, as all monetary outputs are). -/
theorem spec_c2 :
    (∀ l : List ElecEntry,
        get_electricity_overall_stats l
          = get_electricity_overall_stats (l.filter elecValid)) ∧
    ∀ (l : List ElecEntry) (mn mx : ℕ),
      elecMinFrom l = some mn → elecMaxTo l = some mx →
      0 < (mx : ℤ) - (mn : ℤ) ∧
      get_electricity_overall_stats l =
        { total_usage := rnd 2 (elecTotalUsage l)
          total_costs := rnd 2 (elecTotalCosts l)
          number_of_years := rnd 2 ((((mx : ℤ) - (mn : ℤ) : ℤ) : ℚ) / (365.25 : ℚ))
          average_yearly_usage :=
            rnd 2 (elecTotalUsage l / ((((mx : ℤ) - (mn : ℤ) : ℤ) : ℚ) / (365.25 : ℚ))) } := by
  constructor
  · intro l
    unfold get_electricity_overall_stats elecMinFrom elecMaxTo
      elecTotalUsage elecTotalCosts
    rw [filter_idem]
  · intro l mn mx hmn hmx
    have hspan : 0 < (mx : ℤ) - (mn : ℤ) := by
      have hmem : mn ∈ (l.filter elecValid).map (fun e => e.time_from.ordn) :=
        omin_mem hmn
      obtain ⟨e, hef, he⟩ := List.mem_map.mp hmem
      have hev : elecValid e = true := (List.mem_filter.mp hef).2
      have hlt : e.time_from.ordn < e.time_to.ordn := elecValid_lt hev
      have hto : e.time_to.ordn ≤ mx :=
        omax_ge hmx (List.mem_map_of_mem _ hef)
      omega
    refine ⟨hspan, ?_⟩
    have hyrs : (0 : ℚ) < (((mx : ℤ) - (mn : ℤ) : ℤ) : ℚ) / (365.25 : ℚ) := by
      apply div_pos _ (by norm_num)
      exact_mod_cast hspan
    simp only [get_electricity_overall_stats, hmn, hmx, if_pos hspan, if_pos hyrs]

/-- Witness for C2 on a one-entry table. -/
theorem spec_c2_witness :
    elecMinFrom [exSplit] = some 738839 ∧ elecMaxTo [exSplit] = some 738926 ∧
    (0 < ((738926 : ℕ) : ℤ) - ((738839 : ℕ) : ℤ) ∧
      get_electricity_overall_stats [exSplit] =
        { total_usage := rnd 2 (elecTotalUsage [exSplit])
          total_costs := rnd 2 (elecTotalCosts [exSplit])
          number_of_years :=
            rnd 2 (((((738926 : ℕ) : ℤ) - ((738839 : ℕ) : ℤ) : ℤ) : ℚ) / (365.25 : ℚ))
          average_yearly_usage :=
            rnd 2 (elecTotalUsage [exSplit]
              / (((((738926 : ℕ) : ℤ) - ((738839 : ℕ) : ℤ) : ℤ) : ℚ) / (365.25 : ℚ))) }) :=
  ⟨by decide, by decide, spec_c2.2 [exSplit] 738839 738926 (by decide) (by decide)⟩

/-- C10: the year-splitting loop terminates.  Whenever the loop guard
`current_date < entry_time_to` holds, `segment_end` strictly exceeds
`current_date` and never exceeds `entry_time_to`; consequently any fuel
of at least `time_to - current_date` iterations (in particular, exactly
that many) yields the same, complete segment list, so the loop is a
total function of its inputs. -/
theorem spec_c10 :
    ∀ tto c : PyDate, c.ordn < tto.ordn →
      (c.ordn < (segMin tto c).ordn ∧ (segMin tto c).ordn ≤ tto.ordn) ∧
      ∀ fuel : ℕ, tto.ordn - c.ordn ≤ fuel →
        segmentsF fuel tto c = segments tto c := by
  intro tto c h
  exact ⟨⟨segMin_gt h, segMin_le tto c⟩,
    fun fuel hf => segmentsF_eq_segments fuel tto c hf⟩

/-- Witness for C10 at the spec's example period (87 days, 100 fuel). -/
theorem spec_c10_witness :
    d20231115.ordn < d20240210.ordn ∧
    ((d20231115.ordn < (segMin d20240210 d20231115).ordn ∧
        (segMin d20240210 d20231115).ordn ≤ d20240210.ordn) ∧
      segmentsF 100 d20240210 d20231115 = segments d20240210 d20231115) :=
  ⟨by decide,
    ⟨(spec_c10 d20240210 d20231115 (by decide)).1,
      (spec_c10 d20240210 d20231115 (by decide)).2 100 (by decide)⟩⟩

/-- An electricity entry with costs 100 and payments 30. -/
def exDiff : ElecEntry :=
  { time_from := d20231115, time_to := d20240210
    usage := 10, costs := 100, payments := 30 }

/-- Counterexample for C4: the derived `difference` is not
`round(costs - payments, 2)` — with costs 100 and payments 30 the code
reports `-70`, not `70`. -/
theorem spec_c4_cex :
    (calculate_electricity_derived_fields exDiff).difference
      ≠ rnd 2 (exDiff.costs - exDiff.payments) := by
  simp only [calculate_electricity_derived_fields, calculate_difference, exDiff]
  rw [rnd, rnd, round_eq, round_eq]
  norm_num

/-- C4 (amended): the derived `difference` equals
`round(payments - costs, 2)` — the source calls
`calculate_difference(entry.payments, entry.costs)`, so a positive value
means payments exceeded costs. -/
theorem spec_c4 :
    ∀ e : ElecEntry, (calculate_electricity_derived_fields e).difference
      = rnd 2 (e.payments - e.costs) :=
  fun _ => rfl

/-- C6: the division guard - `calculate_price` returns `0` on a zero
quantity and the exact quotient otherwise, and the derived unit price of
an entry with positive usage is `round(costs/usage, 3)`. -/
theorem spec_c6 :
    (∀ c : ℚ, calculate_price c 0 = 0) ∧
    (∀ c q : ℚ, 0 < q → calculate_price c q = c / q) ∧
    (∀ e : ElecEntry, 0 < e.usage →
      (calculate_electricity_derived_fields e).price = rnd 3 (e.costs / e.usage)) := by
  refine ⟨fun c => by simp [calculate_price], fun c q hq => ?_, fun e h => ?_⟩
  · rw [calculate_price, if_neg (ne_of_gt hq)]
  · simp only [calculate_electricity_derived_fields]
    rw [calculate_price, if_neg (ne_of_gt h)]

/-- Positivity fact used to instantiate C6's hypotheses. -/
theorem qfour_pos : (0 : ℚ) < 4 := by norm_num

/-- Positivity of the example entry's usage. -/
theorem exDiff_usage_pos : (0 : ℚ) < exDiff.usage := by
  simp only [exDiff]
  norm_num

/-- Witness for C6 at concrete inputs. -/
theorem spec_c6_witness :
    ((0 : ℚ) < 4 ∧ calculate_price 3 4 = 3 / 4) ∧
    (0 < exDiff.usage ∧
      (calculate_electricity_derived_fields exDiff).price
        = rnd 3 (exDiff.costs / exDiff.usage)) :=
  ⟨⟨qfour_pos, spec_c6.2.1 3 4 qfour_pos⟩,
    ⟨exDiff_usage_pos, spec_c6.2.2 exDiff exDiff_usage_pos⟩⟩

/-- The date 2023-03-01. -/
def d20230301 : PyDate := mkDate 2023 3 1 (by decide)

/-- The date 2023-09-01. -/
def d20230901 : PyDate := mkDate 2023 9 1 (by decide)

/-- Oil delivery 2023-03-01, volume 200, costs 300 (spec's example). -/
def oilA : OilEntry := { date := d20230301, volume := 200, costs := 300 }

/-- Oil delivery 2023-09-01, volume 150, costs 250 (spec's example). -/
def oilB : OilEntry := { date := d20230901, volume := 150, costs := 250 }

/-- C3 (code bug, evaluated at the failing input): with the spec's two
2023 deliveries, `calculate_oil_derived_fields` reports `year_usage`
200 — the entry's own volume — while the year aggregate the spec (and
the superseded `crud.py` implementation, and the response schema's
field description) prescribe is 350; the per-entry `price` 1.5 is as
specified. -/
theorem spec_c3 :
    (calculate_oil_derived_fields oilA).year_usage = 200 ∧
    oilYearVolumeSum [oilA, oilB] 2023 = 350 ∧
    (calculate_oil_derived_fields oilA).year_usage
      ≠ oilYearVolumeSum [oilA, oilB] 2023 ∧
    (calculate_oil_derived_fields oilA).price = 3 / 2 := by
  have h1 : (calculate_oil_derived_fields oilA).year_usage = 200 := by
    simp only [calculate_oil_derived_fields, oilA]
    rw [rnd, round_eq]
    norm_num
  have h2 : oilYearVolumeSum [oilA, oilB] 2023 = 350 := by
    simp [oilYearVolumeSum, oilA, oilB, d20230301, d20230901, mkDate, List.filter]
    norm_num
  refine ⟨h1, h2, ?_, ?_⟩
  · rw [h1, h2]
    norm_num
  · simp only [calculate_oil_derived_fields, oilA, calculate_price]
    rw [if_neg (by norm_num)]
    rw [rnd, round_eq]
    norm_num

/-- Rounding fixes zero at every precision. -/
theorem rnd_zero (p : ℕ) : rnd p 0 = 0 := by
  simp [rnd]

/-- Counterexample for C5: on an empty oil table `number_of_years` is 1
(`COUNT(DISTINCT ...) or 1` coalesces the zero count), not 0. -/
theorem spec_c5_cex :
    (get_oil_overall_stats ([] : List OilEntry)).number_of_years = 1 ∧
    (1 : ℕ) ≠ 0 :=
  ⟨rfl, by norm_num⟩

/-- C5 (amended): empty collections raise nothing and report all-zero
totals and averages; `number_of_years` is 0 for electricity but 1 for
oil and water (their `or 1` coalescing). -/
theorem spec_c5 :
    get_electricity_overall_stats ([] : List ElecEntry) =
      { total_usage := 0, total_costs := 0, number_of_years := 0
        average_yearly_usage := 0 } ∧
    get_oil_overall_stats ([] : List OilEntry) =
      { total_volume := 0, total_costs := 0, number_of_years := 1
        average_volume := 0 } ∧
    get_water_overall_stats ([] : List WaterEntry) =
      { total_volume_water := 0, total_volume_wastewater := 0
        total_volume_rainwater := 0, total_costs_water := 0
        total_costs_wastewater := 0, total_costs_rainwater := 0
        total_payments_water := 0, total_payments_wastewater := 0
        total_payments_rainwater := 0, total_difference_water := 0
        total_difference_wastewater := 0, total_difference_rainwater := 0
        total_fixed_price := 0, number_of_years := 1
        average_yearly_volume_water := 0, average_yearly_volume_wastewater := 0
        average_yearly_volume_rainwater := 0, average_yearly_costs_water := 0
        average_yearly_costs_wastewater := 0, average_yearly_costs_rainwater := 0
        average_yearly_fixed_price := 0, total_costs := 0
        average_usage := 0 } := by
  refine ⟨rfl, ?_, ?_⟩
  · simp [get_oil_overall_stats, rnd_zero]
  · simp [get_water_overall_stats, rnd_zero, calculate_difference]

/-- A 2023 water entry with all volumes 1 and water costs 2. -/
def wTr1 : WaterEntry :=
  { year := 2023, volume_water := 1, volume_wastewater := 1
    volume_rainwater := 1, costs_water := 2, costs_wastewater := 1
    costs_rainwater := 1, payments_water := 0, payments_wastewater := 0
    payments_rainwater := 0, fixed_price := 0 }

/-- A 2023 water entry with zero rainwater volume and water costs 4. -/
def wTr2 : WaterEntry :=
  { year := 2023, volume_water := 1, volume_wastewater := 1
    volume_rainwater := 0, costs_water := 4, costs_wastewater := 1
    costs_rainwater := 1, payments_water := 0, payments_wastewater := 0
    payments_rainwater := 0, fixed_price := 0 }

/-- Counterexample for C7: the entry with zero rainwater volume is
excluded from every stream, not only from the rainwater one — the code's
2023 water-stream average over `[wTr1, wTr2]` is 2 (only `wTr1`
survives the global filter), while the claim's per-stream exclusion
yields 3. -/
theorem spec_c7_cex :
    ((get_water_price_trend [wTr1, wTr2]).map
        (fun r => (r.year, r.average_price_water))) = [(2023, 2)] ∧
    claimedWaterAvgPriceWater [wTr1, wTr2] 2023 = 3 ∧
    ((2 : ℚ) ≠ 3) := by
  have hy : waterTrendYears [wTr1, wTr2] = [2023] := by decide
  have ht1 : waterTrendFilter wTr1 = true := by rfl
  have ht2 : waterTrendFilter wTr2 = false := by rfl
  have hg1 : (wTr1.year == 2023) = true := by rfl
  have hr2 : rnd 3 (2 : ℚ) = 2 := by rw [rnd, round_eq]; norm_num
  refine ⟨?_, ?_, by norm_num⟩
  · simp only [get_water_price_trend, hy, List.filter_cons, List.filter_nil,
      ht1, ht2, if_true, if_false, hg1, List.map_cons, List.map_nil]
    simp only [wTr1]
    norm_num [hr2]
  · have hb1 : (wTr1.year == 2023 && decide (0 < wTr1.volume_water)) = true := by rfl
    have hb2 : (wTr2.year == 2023 && decide (0 < wTr2.volume_water)) = true := by rfl
    simp only [claimedWaterAvgPriceWater, List.filter_cons, List.filter_nil,
      hb1, hb2, if_true]
    simp only [wTr1, wTr2]
    norm_num

/-- Mapping with a left inverse after mapping with the section is the
identity traversal. -/
theorem map_map_id {β : Type} (f : ℕ → β) (g : β → ℕ) (hfg : ∀ y, g (f y) = y) :
    ∀ ys : List ℕ, (ys.map f).map g = ys := by
  intro ys
  induction ys with
  | nil => rfl
  | cons a t ih => simp [hfg, ih]

/-- One `OilPriceTrend` row. -/
structure OilTrendRow where
  year : ℕ
  average_price : ℚ

/-- `oil.get_oil_price_trend`: SQL
`AVG(costs/volume) ... WHERE volume > 0 GROUP BY strftime('%Y', date)
ORDER BY year`. -/
def get_oil_price_trend (l : List OilEntry) : List OilTrendRow :=
  let fl := l.filter (fun e => decide (0 < e.volume))
  (((fl.map (fun e => e.date.year)).dedup).insertionSort (· ≤ ·)).map (fun y =>
    let g := fl.filter (fun e => e.date.year == y)
    { year := y
      average_price := rnd 3 ((g.map (fun e => e.costs / e.volume)).sum / (g.length : ℚ)) })

/-- C7 (amended): price trends are ordered ascending by year and ignore
zero-denominator entries, but for electricity and oil the trend carries
only the yearly average price (no min/max — their row types have no
other statistic), and the water trend's single global `WHERE` drops an
entry with any non-positive stream volume from all three streams'
statistics at once. -/
theorem spec_c7 :
    (∀ l : List ElecEntry,
        ((get_electricity_price_trend l).map (fun r => r.year)).Sorted (· ≤ ·)) ∧
    (∀ l : List ElecEntry,
        get_electricity_price_trend l
          = get_electricity_price_trend (l.filter (fun e => decide (0 < e.usage)))) ∧
    (∀ l : List OilEntry,
        ((get_oil_price_trend l).map (fun r => r.year)).Sorted (· ≤ ·)) ∧
    (∀ l : List OilEntry,
        get_oil_price_trend l
          = get_oil_price_trend (l.filter (fun e => decide (0 < e.volume)))) ∧
    (∀ l : List WaterEntry,
        ((get_water_price_trend l).map (fun r => r.year)).Sorted (· ≤ ·)) ∧
    (∀ l : List WaterEntry,
        get_water_price_trend l = get_water_price_trend (l.filter waterTrendFilter)) := by
  refine ⟨fun l => ?_, fun l => ?_, fun l => ?_, fun l => ?_, fun l => ?_, fun l => ?_⟩
  · simp only [get_electricity_price_trend]
    rw [map_map_id _ (fun r : ElecTrendRow => r.year) (fun y => rfl)]
    exact List.sorted_insertionSort _ _
  · simp only [get_electricity_price_trend]
    rw [filter_idem]
  · simp only [get_oil_price_trend]
    rw [map_map_id _ (fun r : OilTrendRow => r.year) (fun y => rfl)]
    exact List.sorted_insertionSort _ _
  · simp only [get_oil_price_trend]
    rw [filter_idem]
  · simp only [get_water_price_trend, waterTrendYears]
    rw [map_map_id _ (fun r : WaterTrendRow => r.year) (fun y => rfl)]
    exact List.sorted_insertionSort _ _
  · simp only [get_water_price_trend, waterTrendYears]
    rw [filter_idem]

/-- A 2023 water entry with tap-water volume 1 and wastewater volume 2. -/
def wSum : WaterEntry :=
  { year := 2023, volume_water := 1, volume_wastewater := 2
    volume_rainwater := 0, costs_water := 0, costs_wastewater := 0
    costs_rainwater := 0, payments_water := 0, payments_wastewater := 0
    payments_rainwater := 0, fixed_price := 0 }

/-- C8 (code bug, evaluated at the failing input): the yearly summary's
`total_volume_wastewater` column sums `volume_water` — on a single entry
with `volume_water = 1` and `volume_wastewater = 2` it reports 1, while
the sum of the wastewater volumes of that year's entries is 2. -/
theorem spec_c8 :
    ((get_water_yearly_summary [wSum]).map
        (fun r => r.total_volume_wastewater)) = [1] ∧
    ([wSum].map (fun e => e.volume_wastewater)).sum = (2 : ℚ) ∧
    ((1 : ℚ) ≠ 2) := by
  have hy : waterYears [wSum] = [2023] := by decide
  have hg : (wSum.year == 2023) = true := by rfl
  have hr1 : rnd 2 (1 : ℚ) = 1 := by rw [rnd, round_eq]; norm_num
  refine ⟨?_, ?_, by norm_num⟩
  · simp only [get_water_yearly_summary, hy, List.filter_cons, List.filter_nil,
      hg, if_true, List.map_cons, List.map_nil]
    simp only [wSum]
    norm_num [hr1]
  · simp only [wSum, List.map_cons, List.map_nil, List.sum_cons, List.sum_nil]
    norm_num

/-- A water entry whose wastewater payments are 120 and wastewater costs
are 60. -/
def wPay : WaterEntry :=
  { year := 2023, volume_water := 0, volume_wastewater := 0
    volume_rainwater := 0, costs_water := 0, costs_wastewater := 60
    costs_rainwater := 0, payments_water := 0, payments_wastewater := 120
    payments_rainwater := 0, fixed_price := 0 }

/-- C9 (code bug, evaluated at the failing input): the derived
`monthly_payment_wastewater` is computed from `costs_wastewater`, not
from `payments_wastewater` — with payments 120 and costs 60 the code
reports 5 where `round(payments_wastewater / 12, 2)` is 10. -/
theorem spec_c9 :
    (calculate_water_derived_fields wPay).monthly_payment_wastewater = 5 ∧
    rnd 2 (wPay.payments_wastewater / 12) = 10 ∧
    ((5 : ℚ) ≠ 10) := by
  refine ⟨?_, ?_, by norm_num⟩
  · simp only [calculate_water_derived_fields, wPay, calculate_monthly_payment]
    rw [if_neg (by norm_num)]
    rw [rnd, round_eq]
    norm_num
  · simp only [wPay]
    rw [rnd, round_eq]
    norm_num
